import Mathlib

/- Shallow embedding of the obsidian-ai-agent chat plugin core.

   Sources embedded here:
   - the stream adapter AgentService (src/src/SettingsTab.ts lines 102-264, the
     inline copy; src/src/main.ts lines 183-292 is the same service routed through
     MessageFactory): execute, its event loop, convertSDKMessage, the catch branch,
     cancel;
   - the session controller AIChatView (src/src/SettingsTab.ts lines 272-944;
     src/src/ChatView.ts is the refactored copy of the same view): handleSendMessage,
     executeCommand with its onMessage/onError callbacks, cancelExecution, the
     isProcessing guard of handleButtonClick/startNewChat, sendMessage
     (src/src/ChatView.ts lines 468-473);
   - the markdown export saveConversation/generateMarkdown
     (src/src/ChatView.ts lines 481-564).

   Modelling conventions for the JavaScript runtime:
   - Date.now() and new Date() are modelled by an explicit natural number clock
     parameter (the loop advances it by one per event);
   - the Math.random() uuid suffix is modelled by an explicit parameter
     rnd : Nat -> String;
   - nullable strings are Option String; JavaScript string truthiness (null,
     undefined and the empty string are falsy) is the helper strTruthyO, and the
     JavaScript expression a || b on strings is jsOrS / jsOrOpt below;
   - locale date and time formatting is opaque to the program and passed in as
     string parameters. -/

inductive MsgType
  | system
  | assistant
  | user
  | result
deriving DecidableEq, Repr

inductive MsgSubtype
  | success
  | error
  | init
deriving DecidableEq, Repr

inductive Role
  | user
  | assistant
deriving DecidableEq, Repr

structure Usage where
  input_tokens : Option Nat := none
  output_tokens : Option Nat := none
  service_tier : Option String := none
deriving DecidableEq, Repr

/-- Content block variants from src/types.ts lines 23-42: the tool_use input
record is kept as an opaque association list of key/value strings. -/
inductive ContentBlock
  | text (text : String)
  | tool_use (id : String) (name : String) (input : List (String × String))
  | tool_result (tool_use_id : String) (content : Option String) (is_error : Option Bool)
deriving DecidableEq, Repr

/-- Message payload from src/types.ts lines 45-55. -/
structure Message where
  id : String
  role : Role
  content : List ContentBlock
  model : Option String := none
  usage : Option Usage := none
deriving DecidableEq, Repr

/-- Normalized renderer-facing record from src/types.ts lines 57-71.
The cost field is a JavaScript number carried through unchanged; it is modelled
as a rational. The timestamp is the clock value at creation. -/
structure ChatMessage where
  type : MsgType
  message : Option Message := none
  subtype : Option MsgSubtype := none
  duration_ms : Option Nat := none
  duration_api_ms : Option Nat := none
  is_error : Option Bool := none
  num_turns : Option Nat := none
  result : Option String := none
  session_id : String
  total_cost_usd : Option Rat := none
  uuid : String
  timestamp : Option Nat := none
  isUserInput : Bool := false
deriving DecidableEq, Repr

/-- Inner payload of a raw SDK event, src/types.ts lines 78-88. -/
structure SDKInnerMessage where
  id : Option String := none
  role : Option Role := none
  content : Option (List ContentBlock) := none
  model : Option String := none
  usage : Option Usage := none
deriving DecidableEq, Repr

/-- Raw streamed backend event, src/types.ts lines 74-95. -/
structure SDKMessage where
  type : MsgType
  subtype : Option MsgSubtype := none
  session_id : Option String := none
  message : Option SDKInnerMessage := none
  duration_ms : Option Nat := none
  duration_api_ms : Option Nat := none
  is_error : Option Bool := none
  num_turns : Option Nat := none
  result : Option String := none
  total_cost_usd : Option Rat := none
deriving DecidableEq, Repr

/-- A thrown JavaScript error value, as inspected by the catch branch of
AgentService.execute (only name and message are read). -/
structure JsError where
  name : String
  message : String
deriving DecidableEq, Repr

/-- JavaScript truthiness of a nullable string: null, undefined and the empty
string are falsy. -/
def strTruthyO : Option String → Bool
  | none => false
  | some s => decide (s ≠ "")

/-- JavaScript a || b where a is a nullable string and b a plain string. -/
def jsOrS (a : Option String) (b : String) : String :=
  match a with
  | none => b
  | some s => if s = "" then b else s

/-- JavaScript a || b where both sides are nullable strings. -/
def jsOrOpt (a b : Option String) : Option String :=
  if strTruthyO a then a else b

/-- JavaScript truthiness of a nullable number: null, undefined and zero are
falsy. -/
def natTruthyO : Option Nat → Bool
  | none => false
  | some n => decide (n ≠ 0)

/-- String.prototype.trim: strips leading and trailing whitespace.  Written by
structural recursion over the character list so that concrete inputs evaluate
inside the kernel. -/
def jsTrim (s : String) : String :=
  String.mk
    ((((s.data.dropWhile fun ch => ch.isWhitespace).reverse.dropWhile
        fun ch => ch.isWhitespace)).reverse)

/-- The uuid stamped on a converted message, src/src/SettingsTab.ts line 200:
type, current time and a random suffix joined by dashes. -/
def msgTypeStr : MsgType → String
  | MsgType.system => "system"
  | MsgType.assistant => "assistant"
  | MsgType.user => "user"
  | MsgType.result => "result"

/-- AgentService.convertSDKMessage, src/src/SettingsTab.ts lines 197-263.
Maps one raw SDK event to a ChatMessage, or none for unmappable events.
now models Date.now() and rnd the Math.random() uuid suffix. -/
def convertSDKMessage (sdkMessage : SDKMessage) (sessionId : Option String)
    (now : Nat) (rnd : String) : Option ChatMessage :=
  let baseSession : String :=
    jsOrS sdkMessage.session_id (jsOrS sessionId ("session-" ++ toString now))
  let baseUuid : String :=
    msgTypeStr sdkMessage.type ++ "-" ++ toString now ++ "-" ++ rnd
  match sdkMessage.type with
  | MsgType.system =>
      if sdkMessage.subtype = some MsgSubtype.init then
        some { type := MsgType.system
               subtype := some MsgSubtype.init
               session_id := jsOrS sdkMessage.session_id baseSession
               uuid := baseUuid
               timestamp := some now }
      else
        none
  | MsgType.assistant =>
      match sdkMessage.message with
      | some im =>
          some { type := MsgType.assistant
                 message := some { id := jsOrS im.id ("msg-" ++ toString now)
                                   role := Role.assistant
                                   content := im.content.getD []
                                   model := im.model
                                   usage := im.usage }
                 session_id := baseSession
                 uuid := baseUuid
                 timestamp := some now }
      | none => none
  | MsgType.user =>
      match sdkMessage.message with
      | some im =>
          some { type := MsgType.user
                 message := some { id := jsOrS im.id ("msg-" ++ toString now)
                                   role := Role.user
                                   content := im.content.getD [] }
                 session_id := baseSession
                 uuid := baseUuid
                 timestamp := some now }
      | none => none
  | MsgType.result =>
      some { type := MsgType.result
             subtype := some (sdkMessage.subtype.getD MsgSubtype.success)
             duration_ms := sdkMessage.duration_ms
             duration_api_ms := sdkMessage.duration_api_ms
             is_error := sdkMessage.is_error
             num_turns := sdkMessage.num_turns
             result := sdkMessage.result
             session_id := baseSession
             total_cost_usd := sdkMessage.total_cost_usd
             uuid := baseUuid
             timestamp := some now }

/-- The session id update performed per event inside the execute loop,
src/src/SettingsTab.ts lines 158-161: on a system/init event the active id
becomes event.session_id || activeSessionId, otherwise it is unchanged. -/
def nextSession (e : SDKMessage) (sid : Option String) : Option String :=
  if e.type = MsgType.system ∧ e.subtype = some MsgSubtype.init then
    jsOrOpt e.session_id sid
  else
    sid

/-- The for-await loop of AgentService.execute, src/src/SettingsTab.ts
lines 150-166, in the run without abort: each event is converted with the
session id in effect before its own init update, mapped messages are emitted
to onMessage in arrival order, unmappable events emit nothing.  Returns the
emitted messages and the final active session id. -/
def executeLoop (rnd : Nat → String) :
    List SDKMessage → Option String → Nat → List ChatMessage × Option String
  | [], sid, _ => ([], sid)
  | e :: rest, sid, clk =>
      let cm := convertSDKMessage e sid clk (rnd clk)
      let next := executeLoop rnd rest (nextSession e sid) (clk + 1)
      (cm.toList ++ next.1, next.2)

/-- The synthesized cancellation message built by the AbortError branch of the
catch in AgentService.execute, src/src/SettingsTab.ts lines 172-180. -/
def cancelSystemMessage (activeSessionId : Option String) (now : Nat) : ChatMessage :=
  { type := MsgType.system
    result := some ("Execution cancelled by user")
    session_id := jsOrS activeSessionId ("session-" ++ toString now)
    uuid := "cancel-" ++ toString now
    timestamp := some now }

/-- One callback invocation observable at the AgentService.execute boundary. -/
inductive CallbackCall
  | onMessage (m : ChatMessage)
  | onError (e : JsError)
  | onComplete
deriving DecidableEq, Repr

def CallbackCall.isOnError : CallbackCall → Bool
  | CallbackCall.onError _ => true
  | _ => false

/-- AgentService.execute, src/src/SettingsTab.ts lines 114-189, as the sequence
of callback invocations and the resolved value.  The stream is modelled by the
events it yields before terminating; terminal is none for a natural end and
some e when iteration throws e after those events.  The function is total: the
promise always resolves (never rejects) with the active session id. -/
def executeTrace (rnd : Nat → String) (events : List SDKMessage)
    (terminal : Option JsError) (sessionId : Option String) (clk : Nat) :
    List CallbackCall × Option String :=
  let sid0 : Option String := if strTruthyO sessionId then sessionId else none
  let run := executeLoop rnd events sid0 clk
  match terminal with
  | none => (run.1.map CallbackCall.onMessage ++ [CallbackCall.onComplete], run.2)
  | some e =>
      if e.name = "AbortError" then
        (run.1.map CallbackCall.onMessage
          ++ [CallbackCall.onMessage (cancelSystemMessage run.2 (clk + events.length)),
              CallbackCall.onComplete],
         run.2)
      else
        (run.1.map CallbackCall.onMessage
          ++ [CallbackCall.onError e, CallbackCall.onComplete],
         run.2)

/-- The mutable state of the session controller AIChatView that the embedded
operations read and write: the accumulated message list, the current session
id, the file context toggle, the processing flag and the input field text
(src/src/SettingsTab.ts lines 274-286). -/
structure ViewState where
  messages : List ChatMessage
  currentSessionId : Option String
  includeFileContext : Bool
  isProcessing : Bool
  inputValue : String
deriving DecidableEq, Repr

/-- The user-authored message built by handleSendMessage,
src/src/SettingsTab.ts lines 686-697: note that its session id is the fresh
placeholder session-<Date.now()>, independent of the established session id. -/
def mkUserInputMessage (messageText : String) (now : Nat) : ChatMessage :=
  { type := MsgType.user
    message := some { id := "msg-" ++ toString now
                      role := Role.user
                      content := [ContentBlock.text messageText] }
    session_id := "session-" ++ toString now
    uuid := "user-" ++ toString now
    timestamp := some now
    isUserInput := true }

/-- The onMessage callback wired by executeCommand, src/src/SettingsTab.ts
lines 716-728: a system/init message with a truthy session id updates the
current session id, then the message is appended via addMessage. -/
def viewOnMessage (s : ViewState) (m : ChatMessage) : ViewState :=
  let s1 :=
    if m.type = MsgType.system ∧ m.subtype = some MsgSubtype.init ∧ m.session_id ≠ "" then
      { s with currentSessionId := some m.session_id }
    else
      s
  { s1 with messages := s1.messages ++ [m] }

/-- The onError callback wired by executeCommand, src/src/SettingsTab.ts
lines 729-738: the failure is converted to a system ChatMessage and appended. -/
def viewOnError (s : ViewState) (e : JsError) (now : Nat) : ViewState :=
  { s with messages := s.messages ++
      [{ type := MsgType.system
         result := some ("Error: " ++ e.message)
         session_id := jsOrS s.currentSessionId ("session-" ++ toString now)
         uuid := "error-" ++ toString now
         timestamp := some now }] }

/-- Dispatch of one adapter callback into the controller state; onComplete has
no state effect (src/src/SettingsTab.ts lines 739-741). -/
def applyCallback (now : Nat) (s : ViewState) : CallbackCall → ViewState
  | CallbackCall.onMessage m => viewOnMessage s m
  | CallbackCall.onError e => viewOnError s e now
  | CallbackCall.onComplete => s

/-- The session id adoption after the adapter resolves, src/src/SettingsTab.ts
lines 744-746: if (sessionId) this.currentSessionId = sessionId. -/
def adoptResolvedSession (s : ViewState) (sid : Option String) : ViewState :=
  if strTruthyO sid then { s with currentSessionId := sid } else s

/-- AIChatView.executeCommand, src/src/SettingsTab.ts lines 708-757: runs the
adapter with the current session id, folds the callback trace into the view
state, then adopts the resolved session id if truthy.  The surrounding
try/catch is unreachable because the modelled execute always resolves. -/
def executeCommand (rnd : Nat → String) (s : ViewState)
    (events : List SDKMessage) (terminal : Option JsError) (clk : Nat) : ViewState :=
  adoptResolvedSession
    ((executeTrace rnd events terminal s.currentSessionId clk).1.foldl (applyCallback clk) s)
    (executeTrace rnd events terminal s.currentSessionId clk).2

/-- AIChatView.handleSendMessage, src/src/SettingsTab.ts lines 661-706.
currentFile models getCurrentFilePath() (the active file path, or none);
events/terminal model the backend stream consumed by the inner executeCommand.
Returns the new view state and the prompt handed to the adapter, none when the
guard rejects the submission (empty trimmed input or already processing).
finalPrompt is the finalMessage construction of lines 664-670, prefixing the
current file context when the toggle is on and a file is active; submitState
is the synchronous state change of lines 699-702 (append the user message,
clear the input, mark processing). -/
def finalPrompt (s : ViewState) (currentFile : Option String) : String :=
  if s.includeFileContext ∧ strTruthyO currentFile then
    "Current file context: " ++ currentFile.getD "" ++ "\n\n" ++ jsTrim s.inputValue
  else
    jsTrim s.inputValue

def submitState (s : ViewState) (clk : Nat) : ViewState :=
  { s with messages := s.messages ++ [mkUserInputMessage (jsTrim s.inputValue) clk]
           inputValue := ""
           isProcessing := true }

def handleSendMessage (rnd : Nat → String) (s : ViewState) (currentFile : Option String)
    (events : List SDKMessage) (terminal : Option JsError) (clk : Nat) :
    ViewState × Option String :=
  if jsTrim s.inputValue ≠ "" ∧ s.isProcessing = false then
    ({ executeCommand rnd (submitState s clk) events terminal clk with isProcessing := false },
     some (finalPrompt s currentFile))
  else
    (s, none)

/-- AIChatView.sendMessage, src/src/ChatView.ts lines 468-473: rejected while
processing, otherwise places the text into the input field and delegates to
handleSendMessage. -/
def sendMessage (rnd : Nat → String) (s : ViewState) (m : String)
    (currentFile : Option String) (events : List SDKMessage)
    (terminal : Option JsError) (clk : Nat) : ViewState × Option String :=
  if s.isProcessing then
    (s, none)
  else
    handleSendMessage rnd { s with inputValue := m } currentFile events terminal clk

/-- The synthesized cancellation message appended by cancelExecution,
src/src/SettingsTab.ts lines 631-637. -/
def viewCancelMessage (currentSessionId : Option String) (now : Nat) : ChatMessage :=
  { type := MsgType.system
    result := some ("Message execution cancelled")
    session_id := jsOrS currentSessionId ("session-" ++ toString now)
    uuid := "cancel-" ++ toString now
    timestamp := some now }

/-- AIChatView.cancelExecution, src/src/SettingsTab.ts lines 627-639: aborts
the in-flight adapter call (agentService.cancel, a no-op on the view state),
synchronously clears the processing flag and appends one cancellation
message. -/
def cancelExecution (s : ViewState) (now : Nat) : ViewState :=
  let s1 := { s with isProcessing := false }
  { s1 with messages := s1.messages ++ [viewCancelMessage s.currentSessionId now] }

/-- The cancel entry point of the controller: cancelExecution is only ever
reached under the isProcessing guard (handleButtonClick,
src/src/SettingsTab.ts lines 619-625 and src/src/ChatView.ts lines 243-249;
startNewChat lines 759-762; onClose lines 934-938), so requesting cancellation
while idle takes no action. -/
def requestCancel (s : ViewState) (now : Nat) : ViewState :=
  if s.isProcessing then cancelExecution s now else s

/-- AIChatView.handleButtonClick, src/src/SettingsTab.ts lines 619-625: the
send/cancel toggle dispatches on the processing flag. -/
def handleButtonClick (rnd : Nat → String) (s : ViewState) (currentFile : Option String)
    (events : List SDKMessage) (terminal : Option JsError) (clk : Nat) :
    ViewState × Option String :=
  if s.isProcessing then
    (cancelExecution s clk, none)
  else
    handleSendMessage rnd s currentFile events terminal clk

/-- AIChatView.startNewChat, src/src/SettingsTab.ts lines 759-767: cancel if
busy, then reset session id and message list. -/
def startNewChat (s : ViewState) (now : Nat) : ViewState :=
  let s1 := if s.isProcessing then cancelExecution s now else s
  { s1 with currentSessionId := none, messages := [] }

/-- Pad a remainder of hundredths to two digits. -/
def pad2 (n : Nat) : String :=
  if n < 10 then "0" ++ toString n else toString n

/-- The duration line formatting (duration_ms / 1000).toFixed(2) of
src/src/ChatView.ts line 557, computed in exact decimal arithmetic: the
number of hundredths of a second, rounded half up. -/
def fmtDurationSeconds (ms : Nat) : String :=
  let cents := (ms + 5) / 10
  toString (cents / 100) ++ "." ++ pad2 (cents % 100)

/-- The content blocks the export loop reads from a message: the source reads
msg.message.content directly; a missing payload (never produced for the
branches that read it) is treated as an empty block list. -/
def exportContent (m : ChatMessage) : List ContentBlock :=
  (m.message.map Message.content).getD []

/-- The body lines of a User section: the text blocks, in order
(src/src/ChatView.ts lines 534-539). -/
def textOnlyLines (content : List ContentBlock) : List String :=
  content.filterMap fun b =>
    match b with
    | ContentBlock.text t => some t
    | _ => none

/-- The body lines of an Assistant section: text blocks verbatim and tool_use
blocks as a one line notice (src/src/ChatView.ts lines 543-550). -/
def assistantLines (content : List ContentBlock) : List String :=
  content.filterMap fun b =>
    match b with
    | ContentBlock.text t => some t
    | ContentBlock.tool_use _ n _ => some ("> Using tool: " ++ n)
    | _ => none

/-- The lines after the Result heading: the result text, a blank line, the
optional duration line, a blank line (src/src/ChatView.ts lines 553-559). -/
def resultTail (m : ChatMessage) : List String :=
  m.result.getD "" :: "" ::
    (if natTruthyO m.duration_ms then
      ["*Duration: " ++ fmtDurationSeconds (m.duration_ms.getD 0) ++ "s*"]
    else
      []) ++ [""]

/-- The lines contributed by one message to the exported markdown, the loop
body of generateMarkdown, src/src/ChatView.ts lines 531-561: a User section
only for user messages flagged as direct user input, an Assistant section for
assistant messages, a Result section only for result messages with a truthy
result text, nothing otherwise. -/
def msgLines (m : ChatMessage) : List String :=
  if m.type = MsgType.user ∧ m.isUserInput = true then
    "## User" :: (textOnlyLines (exportContent m) ++ [""])
  else if m.type = MsgType.assistant then
    "## Assistant" :: (assistantLines (exportContent m) ++ [""])
  else if m.type = MsgType.result ∧ strTruthyO m.result then
    "## Result" :: resultTail m
  else
    []

/-- The message loop of generateMarkdown over the whole list. -/
def messagesLines : List ChatMessage → List String
  | [] => []
  | m :: rest => msgLines m ++ messagesLines rest

/-- The front matter and title block pushed by generateMarkdown before the
message loop, src/src/ChatView.ts lines 517-528.  dateStr, timeStr and
localeDateStr stand for the opaque host date and time formatting of
new Date(); generateMarkdownLines below is the full list of pushed lines
(the source joins them with newlines at the end). -/
def headerLines (currentSessionId : Option String) (model : Option String)
    (dateStr timeStr localeDateStr : String) : List String :=
  ["---",
   "date: " ++ dateStr,
   "time: " ++ timeStr,
   "model: " ++ jsOrS model ("unknown")]
  ++ (if strTruthyO currentSessionId then
        ["session_id: " ++ currentSessionId.getD ""]
      else
        [])
  ++ ["---", "", "# AI Chat - " ++ localeDateStr ++ " " ++ timeStr, ""]

def generateMarkdownLines (messages : List ChatMessage)
    (currentSessionId : Option String) (model : Option String)
    (dateStr timeStr localeDateStr : String) : List String :=
  headerLines currentSessionId model dateStr timeStr localeDateStr
    ++ messagesLines messages

/-- The joined document text. -/
def generateMarkdown (messages : List ChatMessage)
    (currentSessionId : Option String) (model : Option String)
    (dateStr timeStr localeDateStr : String) : String :=
  String.intercalate ("\n")
    (generateMarkdownLines messages currentSessionId model dateStr timeStr localeDateStr)

/-- AIChatView.saveConversation, src/src/ChatView.ts lines 481-510, abstracted
to the document it writes: none when the message list is empty (the method
returns before any folder or file io), otherwise the generated markdown. -/
def saveConversation (messages : List ChatMessage)
    (currentSessionId : Option String) (model : Option String)
    (dateStr timeStr localeDateStr : String) : Option String :=
  if messages.length = 0 then
    none
  else
    some (generateMarkdown messages currentSessionId model dateStr timeStr localeDateStr)

/-- The eventToChatMessage mapping table of the specification (section 6.2):
an event is mappable exactly when it is a system event with subtype init, an
assistant or user event carrying a message payload, or a result event.  This
definition follows the words of the specification and is compared against the
source function convertSDKMessage. -/
def mappableEvent (e : SDKMessage) : Bool :=
  match e.type with
  | MsgType.system => decide (e.subtype = some MsgSubtype.init)
  | MsgType.assistant => e.message.isSome
  | MsgType.user => e.message.isSome
  | MsgType.result => true

/-- Each event of the stream paired with the active session id and clock in
effect when the execute loop processes it. -/
def annotateEvents : List SDKMessage → Option String → Nat →
    List (SDKMessage × Option String × Nat)
  | [], _, _ => []
  | e :: rest, sid, clk =>
      (e, sid, clk) :: annotateEvents rest (nextSession e sid) (clk + 1)

/-- The last event of the stream that is a system/init carrying a truthy
session id, if any; this phrases the last non-null init wins session adoption
rule that the code implements. -/
def lastInitWithId : List SDKMessage → Option SDKMessage
  | [] => none
  | e :: rest =>
      match lastInitWithId rest with
      | some e1 => some e1
      | none =>
          if e.type = MsgType.system ∧ e.subtype = some MsgSubtype.init
              ∧ strTruthyO e.session_id = true then
            some e
          else
            none

/-- A fixed stand-in for the Math.random() suffix stream, used in concrete
scenarios. -/
def rndDigits : Nat → String := fun n => toString n

lemma convertSDKMessage_isSome (e : SDKMessage) (s : Option String) (c : Nat) (r : String) :
    (convertSDKMessage e s c r).isSome = mappableEvent e := by
  obtain ⟨ty, sub, esid, msg, d1, d2, ie, nt, res, cost⟩ := e
  cases ty with
  | system =>
      by_cases hs : sub = some MsgSubtype.init <;>
        simp [convertSDKMessage, mappableEvent, hs]
  | assistant => cases msg <;> simp [convertSDKMessage, mappableEvent]
  | user => cases msg <;> simp [convertSDKMessage, mappableEvent]
  | result => simp [convertSDKMessage, mappableEvent]

lemma viewOnMessage_messages (s : ViewState) (m : ChatMessage) :
    (viewOnMessage s m).messages = s.messages ++ [m] := by
  unfold viewOnMessage
  split <;> rfl

lemma applyCallback_messages (now : Nat) (s : ViewState) (c : CallbackCall) :
    ∃ d, (applyCallback now s c).messages = s.messages ++ d := by
  cases c with
  | onMessage m => exact ⟨[m], viewOnMessage_messages s m⟩
  | onError e => exact ⟨_, rfl⟩
  | onComplete => exact ⟨[], (List.append_nil _).symm⟩

lemma foldl_applyCallback_messages (now : Nat) :
    ∀ (trace : List CallbackCall) (s : ViewState),
      ∃ tail, (trace.foldl (applyCallback now) s).messages = s.messages ++ tail := by
  intro trace
  induction trace with
  | nil => exact fun s => ⟨[], (List.append_nil _).symm⟩
  | cons c rest ih =>
      intro s
      obtain ⟨d, hd⟩ := applyCallback_messages now s c
      obtain ⟨tail, ht⟩ := ih (applyCallback now s c)
      exact ⟨d ++ tail, by rw [List.foldl_cons, ht, hd, List.append_assoc]⟩

lemma messagesLines_append (xs ys : List ChatMessage) :
    messagesLines (xs ++ ys) = messagesLines xs ++ messagesLines ys := by
  induction xs with
  | nil => rfl
  | cons m rest ih => simp [messagesLines, ih]

/-- Concrete init events used in the session adoption counterexample. -/
def initEvtA : SDKMessage :=
  { type := MsgType.system, subtype := some MsgSubtype.init, session_id := some ("A") }

def initEvtB : SDKMessage :=
  { type := MsgType.system, subtype := some MsgSubtype.init, session_id := some ("B") }

/-- C1 counterexample: streaming two init events carrying ids A then B from a
null initial session id leaves the active session id at B, not at the first
id A, so a later init with a different non-null id does change an already
established session id. -/
theorem firstInitWins_counterexample :
    (executeLoop rndDigits [initEvtA, initEvtB] none 0).2 = some ("B")
    ∧ (some ("B") : Option String) ≠ some ("A") := by
  exact ⟨rfl, by decide⟩

/-- C1 amended: the session id captured by the execute loop is the id of the
last system/init event carrying a truthy session id, or the incoming id when
no such event occurs; an init without a truthy id and every non-init event
leave the active id unchanged. -/
theorem lastNonNullInitWins (rnd : Nat → String) :
    ∀ (events : List SDKMessage) (sid : Option String) (clk : Nat),
      (executeLoop rnd events sid clk).2 =
        match lastInitWithId events with
        | some e => e.session_id
        | none => sid := by
  intro events
  induction events with
  | nil => intro sid clk; rfl
  | cons e rest ih =>
      intro sid clk
      have h1 : (executeLoop rnd (e :: rest) sid clk).2
          = (executeLoop rnd rest (nextSession e sid) (clk + 1)).2 := rfl
      rw [h1, ih]
      cases hl : lastInitWithId rest with
      | some e1 => simp [lastInitWithId, hl]
      | none =>
          simp only [lastInitWithId, hl]
          by_cases hab : e.type = MsgType.system ∧ e.subtype = some MsgSubtype.init
          · by_cases hc : strTruthyO e.session_id = true
            · have hcond : e.type = MsgType.system ∧ e.subtype = some MsgSubtype.init
                  ∧ strTruthyO e.session_id = true := ⟨hab.1, hab.2, hc⟩
              simp only [nextSession, if_pos hab, jsOrOpt, if_pos hc, if_pos hcond]
            · have : ¬ (e.type = MsgType.system ∧ e.subtype = some MsgSubtype.init
                  ∧ strTruthyO e.session_id = true) := by
                intro h; exact hc h.2.2
              simp only [nextSession, if_pos hab, jsOrOpt, if_neg hc, if_neg this]
          · have : ¬ (e.type = MsgType.system ∧ e.subtype = some MsgSubtype.init
                ∧ strTruthyO e.session_id = true) := by
              intro h; exact hab ⟨h.1, h.2.1⟩
            simp only [nextSession, if_neg hab, if_neg this]

/-- C2: the execute loop without error or cancellation emits, in arrival
order, exactly the image of the mappable events under convertSDKMessage
applied at the session id and clock in effect when each event arrived;
unmappable events emit nothing; and the controller appends a sequence of
onMessage callbacks to its message list in exactly the delivered order. -/
theorem orderPreservingNormalization (rnd : Nat → String) :
    (∀ (events : List SDKMessage) (sid : Option String) (clk : Nat),
      (executeLoop rnd events sid clk).1 =
        ((annotateEvents events sid clk).filter fun p => mappableEvent p.1).filterMap
          fun p => convertSDKMessage p.1 p.2.1 p.2.2 (rnd p.2.2))
    ∧ (∀ (e : SDKMessage) (s : Option String) (c : Nat) (r : String),
        (convertSDKMessage e s c r).isSome = mappableEvent e)
    ∧ (∀ (now : Nat) (s : ViewState) (msgs : List ChatMessage),
        ((msgs.map CallbackCall.onMessage).foldl (applyCallback now) s).messages
          = s.messages ++ msgs) := by
  refine ⟨?_, convertSDKMessage_isSome, ?_⟩
  · intro events
    induction events with
    | nil => intro sid clk; rfl
    | cons e rest ih =>
        intro sid clk
        cases hc : convertSDKMessage e sid clk (rnd clk) with
        | none =>
            have hm : mappableEvent e = false := by
              have h := convertSDKMessage_isSome e sid clk (rnd clk)
              rw [hc] at h
              exact h.symm
            simp [executeLoop, annotateEvents, List.filter_cons, hc, hm, ih]
        | some m =>
            have hm : mappableEvent e = true := by
              have h := convertSDKMessage_isSome e sid clk (rnd clk)
              rw [hc] at h
              exact h.symm
            simp [executeLoop, annotateEvents, List.filter_cons, hc, hm, ih,
              List.filterMap_cons]
  · intro now s msgs
    induction msgs generalizing s with
    | nil => simp
    | cons m rest ih =>
        simp only [List.map_cons, List.foldl_cons]
        rw [show applyCallback now s (CallbackCall.onMessage m) = viewOnMessage s m from rfl,
          ih (viewOnMessage s m), viewOnMessage_messages]
        simp

/-- C3: when iteration of the stream throws an error that is not an
AbortError, execute invokes onError with the underlying error, then
onComplete, and resolves (the function is total, so no rejection escapes) with
the session id captured from the events processed before the failure. -/
theorem nonCancellationFailurePath (rnd : Nat → String) (events : List SDKMessage)
    (e : JsError) (sessionId : Option String) (clk : Nat)
    (h : e.name ≠ "AbortError") :
    executeTrace rnd events (some e) sessionId clk =
      ((executeLoop rnd events (if strTruthyO sessionId then sessionId else none) clk).1.map
          CallbackCall.onMessage
        ++ [CallbackCall.onError e, CallbackCall.onComplete],
       (executeLoop rnd events (if strTruthyO sessionId then sessionId else none) clk).2) := by
  unfold executeTrace
  simp [h]

def tysErr : JsError := { name := "TypeError", message := "boom" }

theorem nonCancellationFailurePath_witness :
    executeTrace rndDigits [] (some tysErr) none 0 =
      ([CallbackCall.onError tysErr, CallbackCall.onComplete], none) := by
  have h := nonCancellationFailurePath rndDigits [] tysErr none 0 (by decide)
  simpa using h

/-- C4: when iteration of the stream throws an AbortError, execute synthesizes
a system ChatMessage communicating cancellation, delivers it via onMessage,
then invokes onComplete and resolves with the captured session id; no onError
invocation occurs anywhere on this path. -/
theorem cancellationFailurePath (rnd : Nat → String) (events : List SDKMessage)
    (e : JsError) (sessionId : Option String) (clk : Nat)
    (h : e.name = "AbortError") :
    executeTrace rnd events (some e) sessionId clk =
      ((executeLoop rnd events (if strTruthyO sessionId then sessionId else none) clk).1.map
          CallbackCall.onMessage
        ++ [CallbackCall.onMessage (cancelSystemMessage
              (executeLoop rnd events (if strTruthyO sessionId then sessionId else none) clk).2
              (clk + events.length)),
            CallbackCall.onComplete],
       (executeLoop rnd events (if strTruthyO sessionId then sessionId else none) clk).2)
    ∧ (cancelSystemMessage
        (executeLoop rnd events (if strTruthyO sessionId then sessionId else none) clk).2
        (clk + events.length)).type = MsgType.system
    ∧ ∀ c ∈ (executeTrace rnd events (some e) sessionId clk).1, c.isOnError = false := by
  have h1 : executeTrace rnd events (some e) sessionId clk =
      ((executeLoop rnd events (if strTruthyO sessionId then sessionId else none) clk).1.map
          CallbackCall.onMessage
        ++ [CallbackCall.onMessage (cancelSystemMessage
              (executeLoop rnd events (if strTruthyO sessionId then sessionId else none) clk).2
              (clk + events.length)),
            CallbackCall.onComplete],
       (executeLoop rnd events (if strTruthyO sessionId then sessionId else none) clk).2) := by
    unfold executeTrace
    simp [h]
  refine ⟨h1, rfl, ?_⟩
  intro c hc
  rw [h1] at hc
  simp only [List.mem_append, List.mem_map, List.mem_cons,
    List.not_mem_nil, or_false] at hc
  rcases hc with ⟨m, _, rfl⟩ | rfl | rfl <;> rfl

def abortErr : JsError := { name := "AbortError", message := "aborted" }

theorem cancellationFailurePath_witness :
    executeTrace rndDigits [] (some abortErr) none 0 =
      ([CallbackCall.onMessage (cancelSystemMessage none 0), CallbackCall.onComplete], none)
    ∧ (cancelSystemMessage none 0).type = MsgType.system
    ∧ ∀ c ∈ (executeTrace rndDigits [] (some abortErr) none 0).1, c.isOnError = false := by
  have h := cancellationFailurePath rndDigits [] abortErr none 0 rfl
  simpa using h

/-- C5: a submission while a turn is in flight is rejected by both submit
entry points with the view state unchanged and no adapter call started, and
the same guard rejects a prompt that is empty after trimming. -/
theorem submitGuard (rnd : Nat → String) (s : ViewState) (m : String)
    (currentFile : Option String) (events : List SDKMessage)
    (terminal : Option JsError) (clk : Nat) :
    (s.isProcessing = true →
      handleSendMessage rnd s currentFile events terminal clk = (s, none)
      ∧ sendMessage rnd s m currentFile events terminal clk = (s, none))
    ∧ (jsTrim s.inputValue = "" →
      handleSendMessage rnd s currentFile events terminal clk = (s, none)) := by
  constructor
  · intro h
    constructor
    · unfold handleSendMessage
      simp [h]
    · unfold sendMessage
      simp [h]
  · intro h
    unfold handleSendMessage
    simp [h]

/-- A concrete busy view state. -/
def busyState : ViewState :=
  { messages := []
    currentSessionId := none
    includeFileContext := false
    isProcessing := true
    inputValue := "hello" }

theorem submitGuard_witness :
    handleSendMessage rndDigits busyState none [] none 0 = (busyState, none)
    ∧ sendMessage rndDigits busyState ("again") none [] none 0 = (busyState, none) :=
  (submitGuard rndDigits busyState ("again") none [] none 0).1 rfl

/-- C6: requesting cancellation while idle takes no action: cancelExecution is
guarded by the processing flag at every call site, so no message is appended
and the state stays idle. -/
theorem cancelWhileIdleNoOp (s : ViewState) (now : Nat) (h : s.isProcessing = false) :
    requestCancel s now = s
    ∧ (requestCancel s now).messages = s.messages
    ∧ (requestCancel s now).isProcessing = false := by
  refine ⟨?_, ?_, ?_⟩ <;> simp [requestCancel, h]

/-- A concrete idle view state with an established session. -/
def idleState : ViewState :=
  { messages := []
    currentSessionId := some ("A")
    includeFileContext := false
    isProcessing := false
    inputValue := "" }

theorem cancelWhileIdleNoOp_witness :
    requestCancel idleState 3 = idleState :=
  (cancelWhileIdleNoOp idleState 3 rfl).1

/-- C7: requesting cancellation while busy appends exactly one synthesized
system cancellation message and clears the processing flag in the same
synchronous step, independent of any adapter activity. -/
theorem cancelWhileBusy (s : ViewState) (now : Nat) (h : s.isProcessing = true) :
    (requestCancel s now).messages
      = s.messages ++ [viewCancelMessage s.currentSessionId now]
    ∧ (requestCancel s now).isProcessing = false
    ∧ (viewCancelMessage s.currentSessionId now).type = MsgType.system := by
  refine ⟨?_, ?_, rfl⟩ <;> simp [requestCancel, cancelExecution, h]

theorem cancelWhileBusy_witness :
    (requestCancel busyState 5).messages
      = busyState.messages ++ [viewCancelMessage busyState.currentSessionId 5]
    ∧ (requestCancel busyState 5).isProcessing = false
    ∧ (viewCancelMessage busyState.currentSessionId 5).type = MsgType.system :=
  cancelWhileBusy busyState 5 rfl

/-- A concrete idle view state whose conversation session id is already
established as A and whose input field holds the prompt hi. -/
def establishedState : ViewState :=
  { messages := []
    currentSessionId := some ("A")
    includeFileContext := false
    isProcessing := false
    inputValue := "hi" }

lemma adoptResolvedSession_messages (s : ViewState) (sid : Option String) :
    (adoptResolvedSession s sid).messages = s.messages := by
  unfold adoptResolvedSession
  split <;> rfl

lemma executeCommand_messages (rnd : Nat → String) (s : ViewState)
    (events : List SDKMessage) (terminal : Option JsError) (clk : Nat) :
    ∃ tail, (executeCommand rnd s events terminal clk).messages = s.messages ++ tail := by
  obtain ⟨tail, ht⟩ := foldl_applyCallback_messages clk
    (executeTrace rnd events terminal s.currentSessionId clk).1 s
  refine ⟨tail, ?_⟩
  unfold executeCommand
  rw [adoptResolvedSession_messages, ht]

/-- C9 counterexample: with the session id established as A, submitting hi
appends a user message whose session id is the fresh placeholder session-7
(at clock 7), not the established id A. -/
theorem stableSessionId_counterexample :
    establishedState.currentSessionId = some ("A")
    ∧ ((handleSendMessage rndDigits establishedState none [] none 7).1.messages.map
        ChatMessage.session_id) = ["session-7"]
    ∧ ("session-7" : String) ≠ "A" := by
  refine ⟨rfl, by decide, by decide⟩

/-- C9 amended: the user authored message appended by submit always carries a
freshly generated placeholder session id derived from the current clock,
regardless of the established session id; it is the stream derived messages
that default to the active session id when their event lacks one. -/
theorem userMessageFreshSessionId (rnd : Nat → String) (s : ViewState)
    (currentFile : Option String) (events : List SDKMessage)
    (terminal : Option JsError) (clk : Nat)
    (h1 : s.isProcessing = false) (h2 : jsTrim s.inputValue ≠ "") :
    (∃ tail, (handleSendMessage rnd s currentFile events terminal clk).1.messages
        = s.messages ++ mkUserInputMessage (jsTrim s.inputValue) clk :: tail)
    ∧ (mkUserInputMessage (jsTrim s.inputValue) clk).session_id
        = "session-" ++ toString clk
    ∧ (∀ (e : SDKMessage) (v : String) (c : Nat) (r : String) (m : ChatMessage),
        e.session_id = none → v ≠ "" →
        convertSDKMessage e (some v) c r = some m → m.session_id = v) := by
  refine ⟨?_, rfl, ?_⟩
  · unfold handleSendMessage
    simp only [if_pos (And.intro h2 h1)]
    obtain ⟨tail, ht⟩ := executeCommand_messages rnd (submitState s clk) events terminal clk
    refine ⟨tail, ?_⟩
    show (executeCommand rnd (submitState s clk) events terminal clk).messages = _
    rw [ht]
    simp [submitState]
  · intro e v c r m he hv hm
    obtain ⟨ty, sub, esid, msg, d1, d2, ie, nt, res, cost⟩ := e
    have he1 : esid = none := he
    subst he1
    have hb : jsOrS none (jsOrS (some v) ("session-" ++ toString c)) = v := by
      unfold jsOrS
      simp [hv]
    cases ty with
    | system =>
        by_cases hs : sub = some MsgSubtype.init
        · simp only [convertSDKMessage, hs, if_pos rfl] at hm
          cases hm
          simpa using hb
        · simp [convertSDKMessage, hs] at hm
    | assistant =>
        cases msg with
        | none => simp [convertSDKMessage] at hm
        | some im =>
            simp only [convertSDKMessage] at hm
            cases hm
            simpa using hb
    | user =>
        cases msg with
        | none => simp [convertSDKMessage] at hm
        | some im =>
            simp only [convertSDKMessage] at hm
            cases hm
            simpa using hb
    | result =>
        simp only [convertSDKMessage] at hm
        cases hm
        simpa using hb

theorem userMessageFreshSessionId_witness :
    (∃ tail, (handleSendMessage rndDigits establishedState none [] none 7).1.messages
        = establishedState.messages
            ++ mkUserInputMessage (jsTrim establishedState.inputValue) 7 :: tail)
    ∧ (mkUserInputMessage (jsTrim establishedState.inputValue) 7).session_id
        = "session-" ++ toString 7 := by
  have h := userMessageFreshSessionId rndDigits establishedState none [] none 7 rfl
    (by decide)
  exact ⟨h.1, h.2.1⟩

/-- C10: with file context inclusion on and an active file, the prompt handed
to the adapter is the context prefixed final message, while the user
ChatMessage appended to the message list carries only the trimmed original
input text, so the injected file path never enters the stored conversation
record through the submit path. -/
theorem fileContextNotStored (rnd : Nat → String) (s : ViewState) (path : String)
    (events : List SDKMessage) (terminal : Option JsError) (clk : Nat)
    (h1 : s.isProcessing = false) (h2 : jsTrim s.inputValue ≠ "")
    (h3 : s.includeFileContext = true) (h4 : path ≠ "") :
    (handleSendMessage rnd s (some path) events terminal clk).2
      = some ("Current file context: " ++ path ++ "\n\n" ++ jsTrim s.inputValue)
    ∧ (∃ tail, (handleSendMessage rnd s (some path) events terminal clk).1.messages
        = s.messages ++ mkUserInputMessage (jsTrim s.inputValue) clk :: tail)
    ∧ (mkUserInputMessage (jsTrim s.inputValue) clk).message
        = some { id := "msg-" ++ toString clk
                 role := Role.user
                 content := [ContentBlock.text (jsTrim s.inputValue)] } := by
  refine ⟨?_, ?_, rfl⟩
  · unfold handleSendMessage
    simp only [if_pos (And.intro h2 h1)]
    unfold finalPrompt
    have hcond : s.includeFileContext = true ∧ strTruthyO (some path) = true :=
      ⟨h3, by simp [strTruthyO, h4]⟩
    rw [if_pos hcond]
    rfl
  · unfold handleSendMessage
    simp only [if_pos (And.intro h2 h1)]
    obtain ⟨tail, ht⟩ := executeCommand_messages rnd (submitState s clk) events terminal clk
    refine ⟨tail, ?_⟩
    show (executeCommand rnd (submitState s clk) events terminal clk).messages = _
    rw [ht]
    simp [submitState]

/-- A concrete idle view state with context inclusion on. -/
def contextState : ViewState :=
  { messages := []
    currentSessionId := none
    includeFileContext := true
    isProcessing := false
    inputValue := "ask" }

theorem fileContextNotStored_witness :
    (handleSendMessage rndDigits contextState (some ("/vault/note.md")) [] none 2).2
      = some ("Current file context: /vault/note.md\n\n" ++ jsTrim contextState.inputValue)
    ∧ (∃ tail,
        (handleSendMessage rndDigits contextState (some ("/vault/note.md")) [] none 2).1.messages
          = contextState.messages
              ++ mkUserInputMessage (jsTrim contextState.inputValue) 2 :: tail)
    ∧ (mkUserInputMessage (jsTrim contextState.inputValue) 2).message
        = some { id := "msg-" ++ toString 2
                 role := Role.user
                 content := [ContentBlock.text (jsTrim contextState.inputValue)] } := by
  have h := fileContextNotStored rndDigits contextState ("/vault/note.md") [] none 2 rfl
    (by decide) rfl (by decide)
  exact h

/-- A user kind message that is not direct user input (a tool result surfaced
under the user kind). -/
def exportCexUserMsg : ChatMessage :=
  { type := MsgType.user
    message := some { id := "m1"
                      role := Role.user
                      content := [ContentBlock.text ("hello")] }
    session_id := "s"
    uuid := "u1" }

/-- A result kind message without result text. -/
def exportCexResultMsg : ChatMessage :=
  { type := MsgType.result
    session_id := "s"
    uuid := "u2" }

/-- C8 counterexample: a message list with at least one user message and at
least one result message whose generated document contains neither a User nor
a Result section, because the user message is not flagged as direct user input
and the result message has no truthy result text. -/
theorem exportSections_counterexample :
    ([exportCexUserMsg, exportCexResultMsg].any fun m =>
        decide (m.type = MsgType.user)) = true
    ∧ ([exportCexUserMsg, exportCexResultMsg].any fun m =>
        decide (m.type = MsgType.result)) = true
    ∧ saveConversation [exportCexUserMsg, exportCexResultMsg] none none
        ("d") ("t") ("ld") ≠ none
    ∧ ("## User" : String) ∉ generateMarkdownLines [exportCexUserMsg, exportCexResultMsg]
        none none ("d") ("t") ("ld")
    ∧ ("## Result" : String) ∉ generateMarkdownLines [exportCexUserMsg, exportCexResultMsg]
        none none ("d") ("t") ("ld") := by
  decide

/-- C8 amended: export with zero messages produces no document; a message list
containing a user message flagged as direct user input and, later in the list,
a result message with truthy result text produces a document whose lines
contain a User section heading before a Result section heading. -/
theorem exportSections (msgs a b c : List ChatMessage) (u r : ChatMessage)
    (sid model : Option String) (d t ld : String)
    (hm : msgs = a ++ u :: (b ++ r :: c))
    (hu1 : u.type = MsgType.user) (hu2 : u.isUserInput = true)
    (hr1 : r.type = MsgType.result) (hr2 : strTruthyO r.result = true) :
    saveConversation msgs sid model d t ld
      = some (generateMarkdown msgs sid model d t ld)
    ∧ (∃ p q tail, generateMarkdownLines msgs sid model d t ld
        = p ++ "## User" :: (q ++ "## Result" :: tail))
    ∧ saveConversation [] sid model d t ld = none := by
  subst hm
  refine ⟨?_, ?_, rfl⟩
  · unfold saveConversation
    rw [if_neg]
    simp
  · have hmu : msgLines u = "## User" :: (textOnlyLines (exportContent u) ++ [""]) := by
      unfold msgLines
      rw [if_pos ⟨hu1, hu2⟩]
    have hf1 : ¬(r.type = MsgType.user ∧ r.isUserInput = true) := by
      rw [hr1]
      rintro ⟨h, _⟩
      cases h
    have hf2 : ¬(r.type = MsgType.assistant) := by
      rw [hr1]
      intro h
      cases h
    have hmr : msgLines r = "## Result" :: resultTail r := by
      unfold msgLines
      rw [if_neg hf1, if_neg hf2, if_pos ⟨hr1, hr2⟩]
    refine ⟨headerLines sid model d t ld ++ messagesLines a,
            textOnlyLines (exportContent u) ++ [""] ++ messagesLines b,
            resultTail r ++ messagesLines c, ?_⟩
    unfold generateMarkdownLines
    rw [messagesLines_append]
    simp [messagesLines, messagesLines_append, hmu, hmr, List.append_assoc]

/-- A concrete conversation with one direct user message and one result. -/
def exportOkResultMsg : ChatMessage :=
  { type := MsgType.result
    result := some ("done")
    session_id := "s"
    uuid := "r1" }

theorem exportSections_witness :
    saveConversation [mkUserInputMessage ("hi") 1, exportOkResultMsg] none none
        ("d") ("t") ("ld")
      = some (generateMarkdown [mkUserInputMessage ("hi") 1, exportOkResultMsg] none none
        ("d") ("t") ("ld"))
    ∧ ∃ p q tail,
        generateMarkdownLines [mkUserInputMessage ("hi") 1, exportOkResultMsg] none none
            ("d") ("t") ("ld")
          = p ++ "## User" :: (q ++ "## Result" :: tail) := by
  have h := exportSections [mkUserInputMessage ("hi") 1, exportOkResultMsg]
    [] [] [] (mkUserInputMessage ("hi") 1) exportOkResultMsg none none ("d") ("t") ("ld")
    rfl rfl rfl rfl (by decide)
  exact ⟨h.1, h.2.1⟩
